import Mathlib

/-!
# Verification of the it-snapshot collection and analysis pipeline

A shallow embedding of the core of the `it-snapshot` agent:

* the collector contract (`src/collectors/base.py`),
* the unwanted-software matcher (`src/report/unwanted_software.py`),
* the findings / risk-score engine (`src/report/findings.py`),
* the recommendations engine (`src/recommendations/engine.py`),
* the maintenance analyzer pipeline (`src/maintenance/`),
* the report assembler (`src/cli.py`, `_assemble_report`).

Python dicts with a fixed, known shape are embedded as structures whose
optional keys become `Option` fields (`none` models both an absent key and an
explicit `null`, matching `dict.get`).  Free-form dict payloads that the
analysed code never inspects (hardware detail, log events, the legacy OS
blob, ...) are embedded as the generic JSON-like value type `Val`.
Python floats are embedded as exact rationals (`Rat`); rendering a number
into a string is abstracted as the decimal rendering of the rational.
Effects (current time, fresh run ids, the externally configured pattern
table) become explicit parameters.
-/

namespace ItSnapshot

/-- Generic JSON-like value for dict payloads the pipeline stores but never
inspects field-by-field. -/
inductive Val where
  | vnone : Val
  | vbool : Bool → Val
  | vnum : Rat → Val
  | vstr : String → Val
  | vlist : List Val → Val
  | vdict : List (String × Val) → Val

/-- Python truthiness of a `Val` (`None`, `False`, `0`, `""`, `[]`, `{}` are
falsy). -/
def Val.truthy : Val → Bool
  | .vnone => false
  | .vbool b => b
  | .vnum q => q != 0
  | .vstr s => s ≠ ""
  | .vlist l => !l.isEmpty
  | .vdict d => !d.isEmpty

/-- Association-list lookup used for dict access on `Val`. -/
def Val.lookup (k : String) : List (String × Val) → Option Val
  | [] => none
  | (k', v) :: rest => if k' = k then some v else Val.lookup k rest

/-- `d.get(k)` on a free-form dict value: `None` for non-dicts / missing keys. -/
def Val.get (v : Val) (k : String) : Val :=
  match v with
  | .vdict d => (Val.lookup k d).getD .vnone
  | _ => .vnone

/-- `d.get(k) or {}` idiom: missing/falsy values default to the empty dict. -/
def Val.getOrEmptyDict (v : Val) (k : String) : Val :=
  let w := v.get k
  if w.truthy then w else .vdict []

/-- Python `{**a, **b}`: keys of `a` in order (values overridden by `b`),
followed by the keys only `b` has, in order. -/
def dictUnion (a b : List (String × Val)) : List (String × Val) :=
  (a.map fun kv => (kv.1, (Val.lookup kv.1 b).getD kv.2)) ++
    b.filter fun kv => (Val.lookup kv.1 a).isNone

/-- `{**a.get(ka) or {}, **b.get(kb) or {}}` on two free-form dicts, as used by
the hardware merge in the assembler. -/
def mergeDictValues (a b : Val) : Val :=
  match a, b with
  | .vdict da, .vdict db => .vdict (dictUnion da db)
  | .vdict da, _ => .vdict da
  | _, .vdict db => .vdict db
  | _, _ => .vdict []

-- ── Collector contract (src/collectors/base.py) ─────────────────────────────

/-- `CollectorResult`: `data` dict plus accumulated error strings. -/
structure CollectorResult where
  data : Val := .vdict []
  errors : List String := []

/-- `BaseCollector.collect`: wraps the subclass `_collect` (here: an
`Except`-valued computation, `Except.error` standing for a raised exception)
in try/except; never raises. -/
def BaseCollector.collect (name : String) (res : Except String Val) :
    CollectorResult :=
  match res with
  | .ok d => { data := d }
  | .error exc => { errors := [name ++ ": " ++ exc] }

-- ── Data model (typed sections consumed by the analysis pipeline) ───────────

/-- One entry of `security.antivirus` (only `enabled` is ever read). -/
structure AvEntry where
  name : Option String := none
  enabled : Option Bool := none
  deriving DecidableEq

/-- `security.firewall`. -/
structure FirewallInfo where
  domainEnabled : Option Bool := none
  privateEnabled : Option Bool := none
  publicEnabled : Option Bool := none
  deriving DecidableEq

/-- One entry of `security.encryption.bitlocker_volumes`. -/
structure BitlockerVolume where
  mountPoint : Option String := none
  protectionStatus : Option Int := none
  deriving DecidableEq

/-- `security.encryption`. -/
structure EncryptionInfo where
  bitlockerVolumes : List BitlockerVolume := []
  deriving DecidableEq

/-- The `security` section.  `windows_defender` is written by the assembler's
antivirus merge but never read downstream, so it stays free-form. -/
structure SecurityInfo where
  antivirus : List AvEntry := []
  firewall : FirewallInfo := {}
  uacEnabled : Option Bool := none
  encryption : EncryptionInfo := {}
  windowsDefender : Val := .vnone

/-- The `logs` section; `failed_logins` events are opaque dicts, only the
count matters. -/
structure LogsInfo where
  failedLogins : List Val := []

/-- The `uptime` sub-dict of the uptime collector's output. -/
structure UptimeInfo where
  totalSeconds : Option Int := none
  days : Option Int := none
  hours : Option Int := none
  minutes : Option Int := none
  seconds : Option Int := none
  humanReadable : Option String := none
  deriving DecidableEq

/-- Output of the common uptime collector; becomes the legacy `reboot` key. -/
structure RebootInfo where
  lastBootUtc : Option String := none
  snapshotUtc : Option String := none
  uptime : Option UptimeInfo := none
  deriving DecidableEq

/-- One storage volume, covering both the common psutil partition shape and
the Windows `logical_volumes` shape. -/
structure StorageVolume where
  device : Option String := none
  mountpoint : Option String := none
  driveLetter : Option String := none
  fstype : Option String := none
  opts : Option String := none
  totalGb : Option Rat := none
  usedGb : Option Rat := none
  freeGb : Option Rat := none
  percentUsed : Option Rat := none
  status : Option String := none
  bitlockerStatus : Option String := none
  bitlockerProtection : Option Int := none
  deriving DecidableEq

/-- One installed-software record (only `name` is read by the matcher). -/
structure InstalledApp where
  name : Option String := none
  deriving DecidableEq

/-- One startup entry from the startup collector.  `enabled` defaults to
`true`, matching `entry.get("enabled", True)`. -/
structure StartupEntry where
  name : Option String := none
  etype : Option String := none
  enabled : Bool := true
  location : Option String := none
  command : Option String := none
  deriving DecidableEq

/-- One scheduled task from the startup collector. -/
structure ScheduledTask where
  name : Option String := none
  path : Option String := none
  state : Option Int := none
  triggerType : Option String := none
  deriving DecidableEq

/-- Output dict of the dedicated startup collector (`_startup`). -/
structure StartupInfo where
  count : Option Int := none
  entries : List StartupEntry := []
  scheduledTasks : List ScheduledTask := []
  countByType : Val := .vnone

/-- The `software` section.  `startup_entries` is written by the assembler's
cross-feature propagation. -/
structure SoftwareInfo where
  installed : List InstalledApp := []
  count : Option Int := none
  startupEntries : Option (List StartupEntry) := none
  deriving DecidableEq

/-- One hotfix record under `os_detail.patches.hotfixes`. -/
structure Hotfix where
  id : Option String := none
  deriving DecidableEq

/-- `os_detail.patches`, as read by the OS-update analyzer. -/
structure PatchesInfo where
  lastInstalled : Option String := none
  count : Option Int := none
  hotfixes : Option (List Hotfix) := none
  deriving DecidableEq

/-- The `os_detail` section (only `patches` is inspected downstream). -/
structure OsDetailInfo where
  patches : Option PatchesInfo := none
  deriving DecidableEq

/-- Output of the antivirus collector (`_antivirus`). -/
structure AntivirusData where
  products : Option (List AvEntry) := none
  defender : Val := .vnone

/-- A finding emitted by `compute_findings`. -/
structure Finding where
  id : String
  severity : String
  title : String
  detail : String
  deriving DecidableEq

/-- The `risk_score` sub-object. -/
structure RiskScore where
  score : Nat := 0
  level : String := "low"
  factors : List String := []
  deriving DecidableEq

/-- A finding of the recommendations engine (no id, has remediation). -/
structure Recommendation where
  severity : String
  title : String
  detail : String
  remediation : String
  deriving DecidableEq

/-- The `recommendations` section produced by the recommendations engine. -/
structure Recommendations where
  riskScore : Nat
  findings : List Recommendation
  deriving DecidableEq

/-- The merged `network` section of the assembled report. -/
structure NetSection where
  interfaces : List Val := []
  adapters : List Val := []
  wifiSsid : Val := .vnone
  dnsServers : List Val := []
  defaultGateway : Val := .vnone

/-- The legacy `snapshot` key. -/
structure SnapshotMeta where
  generatedAtUtc : String := ""
  toolVersion : String := ""
  deriving DecidableEq

/-- The assembled report.  Sections whose key may be missing on a raw dict are
`Option`; sections accessed through `dict.get(key, default)` carry the default
directly. -/
structure Report where
  schemaVersion : String := "2.0"
  agentVersion : Option String := none
  runId : Option String := none
  collectedAt : String := ""
  deviceIdentity : Val := .vdict []
  hardware : Val := .vdict []
  physicalDisks : List Val := []
  storage : List StorageVolume := []
  network : NetSection := {}
  osDetail : Option OsDetailInfo := none
  software : Option SoftwareInfo := none
  startup : Option StartupInfo := none
  security : SecurityInfo := {}
  logs : LogsInfo := {}
  findings : List Finding := []
  riskScore : RiskScore := {}
  errors : List String := []
  snapshot : SnapshotMeta := {}
  os : Val := .vdict []
  reboot : RebootInfo := {}
  disks : List StorageVolume := []
  recommendations : Option Recommendations := none

-- ── Unwanted-software matcher (src/report/unwanted_software.py) ─────────────

/-- One entry of the externally configured `patterns` table. -/
structure PatternEntry where
  name : Option String := none
  category : Option String := none
  reason : Option String := none
  severity : Option String := none
  deriving DecidableEq

/-- A match record returned by `match_installed`. -/
structure MatchRecord where
  installedName : String
  pattern : String
  category : String
  reason : String
  severity : String
  deriving DecidableEq

/-- `pat` occurs as a contiguous sublist of `s` (Python `in` on strings). -/
def charsInfix (pat : List Char) : List Char → Bool
  | [] => pat.isEmpty
  | c :: rest => pat.isPrefixOf (c :: rest) || charsInfix pat rest

/-- `str.lower()` as a character list. -/
def lowerChars (s : String) : List Char :=
  s.toList.map Char.toLower

/-- `str.upper()`. -/
def strUpper (s : String) : String :=
  String.mk (s.toList.map Char.toUpper)

/-- Case-insensitive substring test: `pattern.lower() in app_lower`. -/
def containsCI (pat : String) (s : String) : Bool :=
  charsInfix (lowerChars pat) (lowerChars s)

/-- The match record built for `app_name` hitting `entry`. -/
def mkMatchRecord (appName : String) (entry : PatternEntry) : MatchRecord :=
  { installedName := appName
    pattern := entry.name.getD ""
    category := entry.category.getD "Uncategorized"
    reason := entry.reason.getD ""
    severity := entry.severity.getD "medium" }

/-- Inner loop of `match_installed`: first pattern (in table order) whose name
matches `appName` case-insensitively as a substring; `break` after a hit. -/
def findPatternMatch (appName : String) : List PatternEntry → Option MatchRecord
  | [] => none
  | entry :: rest =>
    if containsCI (entry.name.getD "") appName then
      some (mkMatchRecord appName entry)
    else
      findPatternMatch appName rest

/-- Outer loop of `match_installed` over the installed records. -/
def matchInstalledLoop (patterns : List PatternEntry) :
    List InstalledApp → List MatchRecord
  | [] => []
  | app :: rest =>
    match findPatternMatch (app.name.getD "") patterns with
    | some m => m :: matchInstalledLoop patterns rest
    | none => matchInstalledLoop patterns rest

/-- `match_installed(installed)`, with the YAML-configured pattern table as an
explicit argument (config is an external collaborator). -/
def matchInstalled (installed : List InstalledApp)
    (patterns : List PatternEntry) : List MatchRecord :=
  if patterns.isEmpty then []
  else matchInstalledLoop patterns installed

-- ── Findings engine (src/report/findings.py) ────────────────────────────────

/-- `_SEVERITY_WEIGHTS.get(severity, 0)`. -/
def severityWeight (s : String) : Nat :=
  if s = "low" then 5
  else if s = "medium" then 15
  else if s = "high" then 30
  else if s = "critical" then 50
  else 0

/-- Decimal rendering of a number (abstraction of Python `str(float)`). -/
def fmtNum (q : Rat) : String := toString q

/-- The finding wrapped around one unwanted-software match record. -/
def swuFinding (m : MatchRecord) : Finding :=
  { id := "SWU-001"
    severity := m.severity
    title := "Unwanted software detected: " ++ m.installedName
    detail := "Matched pattern '" ++ m.pattern ++ "' [" ++ m.category ++ "]: "
      ++ m.reason }

/-- `compute_findings(report)`: evaluates all rules in order and aggregates
the risk score.  The pattern table consumed by the unwanted-software rule is
an explicit argument. -/
def computeFindings (report : Report) (patterns : List PatternEntry) :
    List Finding × RiskScore :=
  let security := report.security
  let logs := report.logs
  let reboot := report.reboot
  let storage := report.storage
  let findings : List Finding := []
  -- SEC-001: No active antivirus
  let activeAv := security.antivirus.filter fun av => av.enabled.getD false
  let findings := if activeAv.isEmpty then
      findings ++
        [{ id := "SEC-001", severity := "high",
           title := "No active antivirus detected",
           detail := "No enabled antivirus product was found via SecurityCenter2." }]
    else findings
  -- SEC-002: UAC disabled
  let findings := if security.uacEnabled = some false then
      findings ++
        [{ id := "SEC-002", severity := "high",
           title := "UAC is disabled",
           detail := "User Account Control (EnableLUA) is set to 0 in the registry." }]
    else findings
  -- SEC-003: Public firewall disabled
  let findings := if security.firewall.publicEnabled = some false then
      findings ++
        [{ id := "SEC-003", severity := "high",
           title := "Public firewall profile is disabled",
           detail := "The Windows Firewall public profile is not active." }]
    else findings
  -- SEC-004: BitLocker not active on all volumes
  let blVols := security.encryption.bitlockerVolumes
  let unprotected := blVols.filter fun v => v.protectionStatus != some 1
  let findings := if !blVols.isEmpty && !unprotected.isEmpty then
      findings ++
        [{ id := "SEC-004", severity := "medium",
           title := "BitLocker not active on all volumes",
           detail := toString unprotected.length
             ++ " volume(s) lack active BitLocker protection." }]
    else findings
  -- SEC-005: Failed login attempts
  let count := logs.failedLogins.length
  let findings := if count ≥ 5 then
      findings ++
        [{ id := "SEC-005",
           severity := if count ≥ 10 then "high" else "medium",
           title := "Multiple failed login attempts detected",
           detail := toString count
             ++ " failed login event(s) found in the Security log." }]
    else findings
  -- SYS-001: Long uptime
  let uptimeDays : Int := match reboot.uptime with
    | some u => u.days.getD 0
    | none => 0
  let findings := if uptimeDays > 60 then
      findings ++
        [{ id := "SYS-001", severity := "high",
           title := "System uptime exceeds 60 days",
           detail := "System has been running for " ++ toString uptimeDays
             ++ " days without a reboot." }]
    else if uptimeDays > 30 then
      findings ++
        [{ id := "SYS-001", severity := "medium",
           title := "System uptime exceeds 30 days",
           detail := "System has been running for " ++ toString uptimeDays
             ++ " days without a reboot." }]
    else findings
  -- SWU-001: Unwanted software detected
  let installed := match report.software with
    | some sw => sw.installed
    | none => []
  let findings := findings ++ (matchInstalled installed patterns).map swuFinding
  -- SYS-002: Disk nearly/critically full
  let findings := findings ++ storage.flatMap fun disk =>
    let pct := disk.percentUsed.getD 0
    let mp := disk.mountpoint.getD "?"
    if pct > 95 then
      [{ id := "SYS-002", severity := "high",
         title := "Disk critically full: " ++ mp,
         detail := mp ++ " is " ++ fmtNum pct ++ "% full (>95%)." }]
    else if pct > 90 then
      [{ id := "SYS-002", severity := "medium",
         title := "Disk nearly full: " ++ mp,
         detail := mp ++ " is " ++ fmtNum pct ++ "% full (>90%)." }]
    else ([] : List Finding)
  -- Risk score
  let total := (findings.map fun f => severityWeight f.severity).sum
  let score := min 100 total
  let level := if score ≥ 61 then "critical"
    else if score ≥ 31 then "high"
    else if score ≥ 11 then "medium"
    else "low"
  (findings, { score := score, level := level,
               factors := findings.map fun f => f.id })

-- ── Maintenance plan data model (src/maintenance/) ──────────────────────────

/-- The `action` sub-dict of a suggestion. -/
structure SuggestAction where
  type' : String
  description : String
  manualSteps : List String
  deriving DecidableEq

/-- The `patch_info` sub-dict of an OS-update suggestion. -/
structure PatchInfo where
  lastPatchDate : Option String := none
  daysSinceLastPatch : Option Int := none
  patchCountInReport : Option Int := none
  mostRecentKb : Option String := none
  deriving DecidableEq

/-- The `entry` payload echoed into a startup-reduction suggestion: either the
original startup entry or the `{name, path, trigger_type, state}` dict built
for a scheduled task. -/
inductive SuggestionEntry where
  | fromStartup (e : StartupEntry)
  | fromTask (name : String) (path : String) (triggerType : String)
      (state : Option Int)
  deriving DecidableEq

/-- One maintenance suggestion; analyzer-specific keys are optional fields. -/
structure Suggestion where
  id : String
  priority : String
  safeToAutomate : Bool
  title : String
  detail : String
  rationale : String
  pathsToReview : List String := []
  estimatedRecoverableGb : Option Rat := none
  patchInfo : Option PatchInfo := none
  entry : Option SuggestionEntry := none
  action : SuggestAction
  deriving DecidableEq

/-- Python `a or b` on strings (empty string and `None` fall through). -/
def pyOrStr (a : Option String) (b : String) : String :=
  match a with
  | some s => if s = "" then b else s
  | none => b

/-- Python `a or b` where both operands may be missing strings. -/
def pyOrStrOpt (a b : Option String) : Option String :=
  match a with
  | some s => if s = "" then b else some s
  | none => b

/-- Strip all trailing occurrences of `c` (Python `str.rstrip`). -/
def rstripChar (s : String) (c : Char) : String :=
  String.mk (((s.toList).reverse.dropWhile (· == c)).reverse)

/-- Rendering of a number with one decimal (abstraction of Python `f"{x:.1f}"`). -/
def fmt1 (q : Rat) : String :=
  let n : Int := round (q * 10)
  toString (Int.fdiv n 10) ++ "." ++ toString (Int.fmod n 10).natAbs

-- ── Temp-cleanup analyzer (src/maintenance/analyzers/temp_cleanup.py) ───────

/-- The suggestion emitted for one cleanup-eligible volume. -/
def tempCleanupSuggestion (volume : StorageVolume) : Suggestion :=
  let drive := pyOrStr volume.driveLetter (pyOrStr volume.device "?")
  let pct := volume.percentUsed.getD 0
  let used := volume.usedGb.getD 0
  let total := volume.totalGb.getD 0
  let free := volume.freeGb.getD 0
  let dl0 := rstripChar (rstripChar (rstripChar drive '\\') '/') ':'
  let dl := match dl0.toList.reverse with
    | [] => "C"
    | c :: _ => String.mk [c]
  let priority := if pct > 80 then "high"
    else if pct > 50 then "medium"
    else "low"
  let rationale := drive ++ " is " ++ fmtNum pct ++ "% full (" ++ fmt1 used
    ++ " GB used of " ++ fmt1 total ++ " GB, " ++ fmt1 free ++ " GB free)."
  { id := "MAINT-TMP-001"
    priority := priority
    safeToAutomate := false
    title := "Clear Windows temporary files on " ++ drive
    detail := "Windows accumulates temporary files from sessions, installers, "
      ++ "and update downloads. Clearing them is safe and routine."
    rationale := rationale
    pathsToReview := ["%TEMP%", dl ++ ":\\Windows\\Temp",
      dl ++ ":\\Windows\\SoftwareDistribution\\Download"]
    estimatedRecoverableGb := none
    action := {
      type' := "suggest_only"
      description := "Manually delete contents of standard temp folders"
      manualSteps := [
        "Press Win+R, type %TEMP%, press Enter",
        "Select all files (Ctrl+A) and delete - skip any in-use files",
        "Press Win+R, type " ++ dl ++ ":\\Windows\\Temp, press Enter",
        "Delete files you have permission to remove",
        "Alternatively: run 'cleanmgr /d " ++ dl ++ ":' and tick 'Temporary files'",
        "For update cache: stop 'wuauserv', clear " ++ dl
          ++ ":\\Windows\\SoftwareDistribution\\Download, restart service"] } }

/-- `analyze_temp_cleanup(report)`: one suggestion per NTFS volume. -/
def analyzeTempCleanup (report : Report) : List Suggestion :=
  report.storage.flatMap fun volume =>
    if strUpper (volume.fstype.getD "") != "NTFS" then []
    else [tempCleanupSuggestion volume]

-- ── Startup-reduction analyzer (src/maintenance/analyzers/startup_reduction.py)

/-- `_EXEMPT`: names that must never be flagged. -/
def exemptNames : List String :=
  ["egui", "securityhealth", "globalprotect", "keepass", "keepass 2"]

/-- `_OPTIONAL_PATTERNS`: substrings flagged as optional/low-value. -/
def optionalPatterns : List (String × String) :=
  [("microsoftedge", "Edge browser convenience launch - start manually when needed"),
   ("opera", "Browser auto-start - start manually when needed"),
   ("googledrivefs", "Google Drive sync - can start on-demand"),
   ("onedrive", "OneDrive sync - can start on-demand if not required immediately at login"),
   ("clickshare", "ClickShare conferencing client - optional outside meeting rooms"),
   ("adobecollabsync", "Adobe Acrobat collaboration sync - optional"),
   ("adobe acrobat sync", "Adobe Acrobat collaboration sync - optional"),
   ("ituneshelper", "iTunes helper - optional if iPhone not regularly connected at login"),
   ("claude", "Claude desktop - start manually when needed"),
   ("teams", "Microsoft Teams - can be launched manually; auto-start delays login")]

/-- `_TASK_OS_PREFIXES`: scheduled-task paths that are OS-owned. -/
def taskOsPrefixes : List String :=
  ["\\microsoft\\windows\\", "\\microsoft\\"]

/-- `_is_exempt(name)`. -/
def isExempt (name : String) : Bool :=
  exemptNames.any fun ex => charsInfix ex.toList (lowerChars name)

/-- `_optional_reason(name)`: reason of the first matching optional pattern. -/
def optionalReason (name : String) : Option String :=
  optionalPatterns.findSome? fun pr =>
    if charsInfix pr.1.toList (lowerChars name) then some pr.2 else none

/-- `f"{counter:03d}"` for the suggestion counter. -/
def pad3 (n : Nat) : String :=
  if n < 10 then "00" ++ toString n
  else if n < 100 then "0" ++ toString n
  else toString n

/-- `_make_suggestion(...)`: the single construction site of all
startup-reduction suggestions. -/
def makeSuggestion (sid priority title detail rationale : String)
    (entry : SuggestionEntry) (manualSteps : List String) : Suggestion :=
  { id := sid
    priority := priority
    safeToAutomate := false
    title := title
    detail := detail
    rationale := rationale
    entry := some entry
    action := {
      type' := "suggest_only"
      description :=
        "Review and disable via Task Manager, Registry Editor, or Task Scheduler"
      manualSteps := manualSteps } }

/-- Loop over registry / startup-folder entries, threading the counter. -/
def processStartupEntries :
    List StartupEntry → Nat → List Suggestion × Nat
  | [], counter => ([], counter)
  | entry :: rest, counter =>
    let name := entry.name.getD ""
    let etype := entry.etype.getD ""
    let enabled := entry.enabled
    let location := entry.location.getD ""
    if isExempt name then processStartupEntries rest counter
    else if etype = "registry_runonce" then
      let s := makeSuggestion ("MAINT-STR-" ++ pad3 counter) "medium"
        ("Review lingering RunOnce entry: '" ++ name ++ "'")
        ("'" ++ name ++ "' is registered under " ++ location ++ ". "
          ++ "RunOnce entries should self-delete after running; a persistent entry "
          ++ "may indicate an incomplete installation or failed operation.")
        "Stale RunOnce entries can slow login and indicate unresolved installer issues."
        (.fromStartup entry)
        ["Open Registry Editor and navigate to " ++ location,
         "Verify whether '" ++ name ++ "' still needs to run",
         "If the associated operation completed, delete the value",
         "If unsure, check the application's installer logs"]
      let lc := processStartupEntries rest (counter + 1)
      (s :: lc.1, lc.2)
    else if !enabled then
      let s := makeSuggestion ("MAINT-STR-" ++ pad3 counter) "info"
        ("Remove disabled startup entry: '" ++ name ++ "'")
        ("'" ++ name ++ "' exists in " ++ location ++ " but has been disabled "
          ++ "(marked off in StartupApproved). It has no effect and can be removed.")
        "Orphaned disabled entries accumulate over time and clutter startup management tools."
        (.fromStartup entry)
        ["Open Registry Editor and navigate to " ++ location,
         "Delete the '" ++ name ++ "' value",
         "WARNING: Only delete values you are confident are no longer needed"]
      let lc := processStartupEntries rest (counter + 1)
      (s :: lc.1, lc.2)
    else
      match optionalReason name with
      | some reason =>
        let note := if charsInfix "hklm".toList (lowerChars location) then
            "Note: this entry is in " ++ location ++ " (machine-wide). "
              ++ "Disabling it affects all users on this machine."
          else
            "This entry is in " ++ location ++ " (current user only)."
        let manualSteps :=
          ["Open Task Manager (Ctrl+Shift+Esc) and go to the Startup Apps tab",
           "Find '" ++ name ++ "' and click 'Disable'",
           "Alternatively: open Registry Editor, navigate to " ++ location
             ++ ", delete the '" ++ name ++ "' value",
           note]
        let s := makeSuggestion ("MAINT-STR-" ++ pad3 counter) "low"
          ("Consider disabling '" ++ name ++ "' from startup")
          ("'" ++ name ++ "' launches automatically at login via " ++ location ++ ".")
          reason
          (.fromStartup entry)
          manualSteps
        let lc := processStartupEntries rest (counter + 1)
        (s :: lc.1, lc.2)
      | none => processStartupEntries rest counter

/-- Loop over scheduled tasks with logon/boot triggers. -/
def processScheduledTasks :
    List ScheduledTask → Nat → List Suggestion × Nat
  | [], counter => ([], counter)
  | task :: rest, counter =>
    let name := task.name.getD ""
    let path := pyOrStr task.path "\\"
    let state := task.state
    let trigger := task.triggerType.getD ""
    if isExempt name then processScheduledTasks rest counter
    else if taskOsPrefixes.any (fun pfx => pfx.toList.isPrefixOf (lowerChars (path ++ name))) then
      processScheduledTasks rest counter
    else if state != some 3 then processScheduledTasks rest counter
    else
      let triggerLabel := if trigger = "" then "LogonTrigger/BootTrigger" else trigger
      let s := makeSuggestion ("MAINT-STR-" ++ pad3 counter) "low"
        ("Review scheduled task at startup: '" ++ name ++ "'")
        ("The scheduled task '" ++ name ++ "' (path: " ++ path ++ ") has a "
          ++ triggerLabel ++ " and runs automatically at login or boot.")
        ("Third-party scheduled tasks that run at logon can delay startup "
          ++ "and consume resources. Review whether each task is still necessary.")
        (.fromTask name path trigger state)
        ["Open Task Scheduler (taskschd.msc)",
         "Locate the task '" ++ name ++ "' under '" ++ path ++ "'",
         "Review its trigger, action, and history",
         "Right-click and select 'Disable' if the task is no longer needed",
         "Do not disable tasks related to system health, security, or backup"]
      let lc := processScheduledTasks rest (counter + 1)
      (s :: lc.1, lc.2)

/-- `analyze_startup_reduction(report)`. -/
def analyzeStartupReduction (report : Report) : List Suggestion :=
  let entries := match report.startup with
    | some s => s.entries
    | none => []
  let tasks := match report.startup with
    | some s => s.scheduledTasks
    | none => []
  let lc1 := processStartupEntries entries 1
  let lc2 := processScheduledTasks tasks lc1.2
  lc1.1 ++ lc2.1

-- ── OS-update analyzer (src/maintenance/analyzers/os_updates.py) ────────────

/-- Numeric value of a digit run. -/
def digitsToNat (l : List Char) : Nat :=
  l.foldl (fun n c => 10 * n + (c.toNat - '0'.toNat)) 0

/-- Try to match `/Date(<digits>)/` at the head of the character list. -/
def tryDateAt (l : List Char) : Option Nat :=
  if "/Date(".toList.isPrefixOf l then
    let after := l.drop 6
    let digits := after.takeWhile Char.isDigit
    if digits.isEmpty then none
    else if ")/".toList.isPrefixOf (after.drop digits.length) then
      some (digitsToNat digits)
    else none
  else none

/-- `_DATE_RE.search`: leftmost match of `/Date(\d+)/`, returning epoch ms. -/
def searchDateMs : List Char → Option Nat
  | [] => none
  | c :: rest =>
    match tryDateAt (c :: rest) with
    | some n => some n
    | none => searchDateMs rest

/-- `_parse_last_patch(raw)`: epoch milliseconds of the last patch install
(the UTC datetime is kept as its epoch-ms value). -/
def parseLastPatch (raw : Option String) : Option Nat :=
  match raw with
  | none => none
  | some s => if s = "" then none else searchDateMs s.toList

/-- Howard Hinnant's civil-from-days: day number since 1970-01-01 to (y, m, d). -/
def civilFromDays (z : Int) : Int × Int × Int :=
  let z' := z + 719468
  let era := Int.fdiv z' 146097
  let doe := z' - era * 146097
  let yoe := Int.fdiv (doe - Int.fdiv doe 1460 + Int.fdiv doe 36524
    - Int.fdiv doe 146096) 365
  let y := yoe + era * 400
  let doy := doe - (365 * yoe + Int.fdiv yoe 4 - Int.fdiv yoe 100)
  let mp := Int.fdiv (5 * doy + 2) 153
  let d := doy - Int.fdiv (153 * mp + 2) 5 + 1
  let m := if mp < 10 then mp + 3 else mp - 9
  (if m ≤ 2 then y + 1 else y, m, d)

/-- Two-digit zero padding for months and days. -/
def pad2 (n : Int) : String :=
  if 0 ≤ n ∧ n < 10 then "0" ++ toString n else toString n

/-- `last_dt.strftime("%Y-%m-%d")` for an epoch-ms value. -/
def formatDateYMD (ms : Nat) : String :=
  let ymd := civilFromDays (Int.fdiv (ms : Int) 86400000)
  toString ymd.1 ++ "-" ++ pad2 ymd.2.1 ++ "-" ++ pad2 ymd.2.2

/-- The standing `MAINT-OSU-002` reminder appended on every run. -/
def standingUpdateReminder : Suggestion :=
  { id := "MAINT-OSU-002"
    priority := "info"
    safeToAutomate := false
    title := "Confirm Windows Update is set to automatic"
    detail := "Ensure Windows Update is configured to download and install "
      ++ "updates automatically to minimise exposure windows."
    rationale :=
      "Automatic updates reduce the chance of a long patch gap going unnoticed."
    action := {
      type' := "suggest_only"
      description := "Verify the Windows Update policy setting"
      manualSteps := [
        "Open Settings > Windows Update > Advanced options",
        "Confirm 'Receive updates for other Microsoft products' is enabled",
        "Confirm 'Automatic (recommended)' is selected under Active hours",
        "Check Group Policy: Computer Configuration > Administrative Templates > Windows Components > Windows Update"] } }

/-- `os_detail = report.get("os_detail") or {}; patches = os_detail.get("patches") or {}`. -/
def reportPatches (r : Report) : PatchesInfo :=
  match r.osDetail with
  | some od => od.patches.getD {}
  | none => {}

/-- `analyze_os_updates(report)`, with the current UTC time (epoch ms) as an
explicit parameter. -/
def analyzeOsUpdates (report : Report) (nowMs : Int) : List Suggestion :=
  let patches : PatchesInfo := reportPatches report
  let lastDt := parseLastPatch patches.lastInstalled
  let patchCount := patches.count.getD 0
  let hotfixes := patches.hotfixes.getD []
  let mostRecentKb := match hotfixes with
    | [] => none
    | h :: _ => h.id
  let stale : List Suggestion := match lastDt with
    | none =>
      [{ id := "MAINT-OSU-001"
         priority := "medium"
         safeToAutomate := false
         title := "Verify Windows Update status"
         detail := "The last patch installation date could not be determined from the collected data."
         rationale := "Regular patching is the highest-impact security control. Manual verification is recommended."
         patchInfo := some { lastPatchDate := none, daysSinceLastPatch := none }
         action := {
           type' := "suggest_only"
           description := "Open Windows Update and check for pending updates"
           manualSteps := [
             "Open Settings > Windows Update",
             "Click 'Check for updates'",
             "Install all available updates",
             "Reboot when prompted"] } }]
    | some ms =>
      let daysAgo : Int := Int.fdiv (nowMs - (ms : Int)) 86400000
      let dateStr := formatDateYMD ms
      let priority : Option String :=
        if daysAgo ≥ 90 then some "high"
        else if daysAgo ≥ 30 then some "medium"
        else if daysAgo ≥ 14 then some "low"
        else none
      match priority with
      | some p =>
        [{ id := "MAINT-OSU-001"
           priority := p
           safeToAutomate := false
           title := "Apply pending Windows updates"
           detail := "Last patch installed on " ++ dateStr ++ " - "
             ++ toString daysAgo ++ " day(s) ago."
           rationale := "Regular patching is the single highest-impact security control. "
             ++ "Delaying patches increases exposure to known CVEs."
           patchInfo := some {
             lastPatchDate := some dateStr
             daysSinceLastPatch := some daysAgo
             patchCountInReport := some patchCount
             mostRecentKb := mostRecentKb }
           action := {
             type' := "suggest_only"
             description := "Open Windows Update and install all available updates"
             manualSteps := [
               "Open Settings > Windows Update",
               "Click 'Check for updates'",
               "Install all available updates",
               "Reboot when prompted"] } }]
      | none => []
  stale ++ [standingUpdateReminder]

-- ── Maintenance plan generator (src/maintenance/generator.py) ───────────────

/-- `summary.by_category`. -/
structure ByCategory where
  tempCleanup : Nat
  startupReduction : Nat
  osUpdates : Nat
  deriving DecidableEq

/-- `summary`. -/
structure PlanSummary where
  totalSuggestions : Nat
  byCategory : ByCategory
  estimatedSpaceRecoverableGb : Option Rat := none
  deriving DecidableEq

/-- The `suggestions` mapping of the plan. -/
structure PlanSuggestions where
  tempCleanup : List Suggestion
  startupReduction : List Suggestion
  osUpdates : List Suggestion
  deriving DecidableEq

/-- A maintenance plan. -/
structure MaintenancePlan where
  schemaVersion : String
  planVersion : String
  generatedAt : String
  sourceReportId : Option String
  hostname : Option String
  agentVersion : Option String
  safetyNotice : String
  summary : PlanSummary
  suggestions : PlanSuggestions
  deriving DecidableEq

/-- `d.get(k)` on a free-form dict, restricted to string values. -/
def Val.getStr (v : Val) (k : String) : Option String :=
  match v.get k with
  | .vstr s => some s
  | _ => none

/-- `generate(report)`: the maintenance plan.  The two wall-clock reads
(`generated_at` ISO string, `now` for patch staleness) are parameters. -/
def generate (report : Report) (nowMs : Int) (generatedAt : String) :
    MaintenancePlan :=
  let temp := analyzeTempCleanup report
  let startup := analyzeStartupReduction report
  let osUpd := analyzeOsUpdates report nowMs
  let byCategory : ByCategory :=
    { tempCleanup := temp.length
      startupReduction := startup.length
      osUpdates := osUpd.length }
  let total := temp.length + startup.length + osUpd.length
  let hostname := pyOrStrOpt (report.deviceIdentity.getStr "hostname")
    (report.os.getStr "hostname")
  { schemaVersion := "1.0"
    planVersion := "1.0"
    generatedAt := generatedAt
    sourceReportId := report.runId
    hostname := hostname
    agentVersion := report.agentVersion
    safetyNotice := "This plan contains suggestions only. "
      ++ "No changes are applied automatically. "
      ++ "Review every item carefully before taking any action."
    summary := {
      totalSuggestions := total
      byCategory := byCategory
      estimatedSpaceRecoverableGb := none }
    suggestions := {
      tempCleanup := temp
      startupReduction := startup
      osUpdates := osUpd } }

-- ── Recommendations engine (src/recommendations/engine.py) ──────────────────

/-- `_SEVERITY_WEIGHT.get(severity, 0)` of the 3-level engine. -/
def recSeverityWeight (s : String) : Nat :=
  if s = "critical" then 30
  else if s = "warning" then 10
  else if s = "info" then 2
  else 0

/-- `_SEVERITY_ORDER.get(severity, 3)` of the 3-level engine. -/
def recSevOrder (s : String) : Nat :=
  if s = "critical" then 0
  else if s = "warning" then 1
  else if s = "info" then 2
  else 3

/-- `_check_disks(report)`. -/
def checkDisks (report : Report) : List Recommendation :=
  let volumes := if !report.storage.isEmpty then report.storage
    else if !report.disks.isEmpty then report.disks
    else []
  volumes.flatMap fun vol =>
    match vol.percentUsed with
    | none => []
    | some pct =>
      let device := pyOrStr vol.device (pyOrStr vol.mountpoint "unknown")
      if pct > 90 then
        [{ severity := "critical",
           title := "Disk " ++ device ++ " critically full",
           detail := device ++ " is " ++ fmtNum pct ++ "% full.",
           remediation := "Free up disk space immediately or expand storage capacity." }]
      else if pct > 80 then
        [{ severity := "warning",
           title := "Disk " ++ device ++ " nearly full",
           detail := device ++ " is " ++ fmtNum pct ++ "% full.",
           remediation := "Review and clean up disk usage to prevent reaching critical levels." }]
      else []

/-- `_check_uptime(report)`. -/
def checkUptime (report : Report) : List Recommendation :=
  let uptime : UptimeInfo := (report.reboot.uptime).getD {}
  let days : Int := uptime.days.getD 0
  let human := uptime.humanReadable.getD (toString days ++ "d")
  if days > 90 then
    [{ severity := "critical",
       title := "System uptime critically high",
       detail := "System has been running for " ++ human ++ " without a reboot.",
       remediation := "Reboot the system as soon as possible to apply pending updates "
         ++ "and release accumulated resources." }]
  else if days > 30 then
    [{ severity := "warning",
       title := "System uptime high",
       detail := "System has been running for " ++ human ++ " without a reboot.",
       remediation := "Schedule a reboot to apply pending patches and refresh system state." }]
  else []

/-- `_check_antivirus(report)`. -/
def checkAntivirus (report : Report) : List Recommendation :=
  let avList := report.security.antivirus
  let active := avList.filter fun av => av.enabled.getD false
  if active.isEmpty then
    [{ severity := "critical",
       title := "No antivirus detected",
       detail := "No enabled antivirus product was found on this system.",
       remediation := "Install and enable a reputable antivirus solution immediately." }]
  else []

/-- `_check_startup(report)`.  When `software.startup_entries` is missing or
empty, the fallback `report.get("startup")` is the startup *dict*, whose
`len` is its fixed four keys (`count`, `entries`, `scheduled_tasks`,
`count_by_type`). -/
def checkStartup (report : Report) : List Recommendation :=
  let fromSw : Option (List StartupEntry) := match report.software with
    | some sw =>
      match sw.startupEntries with
      | some l => if l.isEmpty then none else some l
      | none => none
    | none => none
  let countOpt : Option Nat := match fromSw with
    | some l => some l.length
    | none =>
      match report.startup with
      | some _ => some 4
      | none => none
  match countOpt with
  | none => []
  | some count =>
    if count > 8 then
      [{ severity := "warning",
         title := "Too many startup items",
         detail := toString count ++ " programs are configured to run at startup.",
         remediation := "Disable unnecessary startup items to improve boot time and performance." }]
    else []

/-- Stable insertion (after all entries of smaller-or-equal rank), realizing
the stable `list.sort` by severity order. -/
def insertRecBySev (f : Recommendation) : List Recommendation → List Recommendation
  | [] => [f]
  | g :: rest =>
    if recSevOrder g.severity ≤ recSevOrder f.severity then g :: insertRecBySev f rest
    else f :: g :: rest

/-- `findings.sort(key=severity order)` (stable). -/
def sortRecsBySev (l : List Recommendation) : List Recommendation :=
  l.foldl (fun acc f => insertRecBySev f acc) []

/-- `analyze(report)`: risk score and sorted findings of the 3-level engine. -/
def analyze (report : Report) : Recommendations :=
  let findings := checkDisks report ++ checkUptime report
    ++ checkAntivirus report ++ checkStartup report
  let findings := sortRecsBySev findings
  { riskScore := min ((findings.map fun f => recSeverityWeight f.severity).sum) 100
    findings := findings }

-- ── Report assembler (src/cli.py, `_assemble_report`) ───────────────────────

/-- `d.get(k, default)` on a free-form dict value. -/
def Val.getDef (v : Val) (k : String) (d : Val) : Val :=
  match v with
  | .vdict l => (Val.lookup k l).getD d
  | _ => d

/-- Output of the common storage collector. -/
structure CommonStorageData where
  partitions : List StorageVolume := []

/-- Output of the common network collector (free-form interface dicts). -/
structure CommonNetData where
  interfaces : List Val := []

/-- Output of a platform storage collector. -/
structure PlatStorageData where
  physicalDisks : List Val := []
  logicalVolumes : List StorageVolume := []

/-- Output of a platform network collector. -/
structure NetDetailData where
  adapters : List Val := []
  wifiSsid : Val := .vnone
  dnsServers : List Val := []
  defaultGateway : Val := .vnone

/-- The labelled `platform_results` mapping routed by the orchestrator.
`none` stands for an absent or empty (falsy) entry. -/
structure PlatformResults where
  deviceIdentity : Option Val := none
  winHardware : Option Val := none
  macHardware : Option Val := none
  winStorage : Option PlatStorageData := none
  macStorage : Option PlatStorageData := none
  winNetwork : Option NetDetailData := none
  macNetwork : Option NetDetailData := none
  osDetail : Option OsDetailInfo := none
  software : Option SoftwareInfo := none
  security : Option SecurityInfo := none
  logs : Option LogsInfo := none
  startup : Option StartupInfo := none
  antivirus : Option AntivirusData := none

/-- `_assemble_report(...)`.  The wall clock (`now_utc`), the fresh
`run_id`, the agent version and the unwanted-software pattern table are
explicit parameters. -/
def assembleReport (commonHw : Val) (commonStorage : CommonStorageData)
    (commonNet : CommonNetData) (uptime : RebootInfo)
    (platformResults : PlatformResults) (legacyOs : Val)
    (allErrors : List String) (nowUtc : String) (runId : String)
    (agentVersion : String) (patterns : List PatternEntry) : Report :=
  -- Hardware: merge common psutil data with platform-specific detail
  let winHw := (platformResults.winHardware).getD (.vdict [])
  let macHw := (platformResults.macHardware).getD (.vdict [])
  let platHw := if winHw.truthy then winHw else macHw
  let commonCpu := commonHw.getOrEmptyDict "cpu"
  let commonRam := commonHw.getOrEmptyDict "ram"
  let platCpu := platHw.getOrEmptyDict "cpu"
  let platRam := platHw.getOrEmptyDict "ram"
  let hwSection : Val := .vdict [
    ("cpu", mergeDictValues commonCpu platCpu),
    ("ram", mergeDictValues commonRam platRam),
    ("gpu", platHw.getDef "gpu" (.vlist [])),
    ("motherboard", platHw.getDef "motherboard" (.vdict [])),
    ("bios", platHw.getDef "bios" (.vdict [])),
    ("tpm", platHw.getDef "tpm" (.vdict [])),
    ("secure_boot", platHw.getDef "secure_boot" (.vdict [])),
    ("monitors", platHw.getDef "monitors" (.vlist [])),
    ("printers", platHw.getDef "printers" (.vlist []))]
  -- Storage: prefer platform-specific
  let platStorage : Option PlatStorageData := match platformResults.winStorage with
    | some s => some s
    | none => platformResults.macStorage
  let storageList := match platStorage with
    | some ps => ps.logicalVolumes
    | none => commonStorage.partitions
  let physicalDisks := match platStorage with
    | some ps => ps.physicalDisks
    | none => []
  -- Network: common interfaces + platform adapter detail
  let platNet : NetDetailData := match platformResults.winNetwork with
    | some n => n
    | none => (platformResults.macNetwork).getD {}
  let netSection : NetSection :=
    { interfaces := commonNet.interfaces
      adapters := platNet.adapters
      wifiSsid := platNet.wifiSsid
      dnsServers := platNet.dnsServers
      defaultGateway := platNet.defaultGateway }
  -- Merge dedicated startup collector output into software.startup_entries
  let software1 : Option SoftwareInfo := match platformResults.startup with
    | some sd => some { (platformResults.software).getD {} with
        startupEntries := some sd.entries }
    | none => platformResults.software
  -- Merge dedicated antivirus collector output into the security section
  let security1 : Option SecurityInfo := match platformResults.antivirus with
    | some ad =>
      let sec := (platformResults.security).getD {}
      let sec := match ad.products with
        | some prods => { sec with antivirus := prods }
        | none => sec
      let sec := if ad.defender.truthy then { sec with windowsDefender := ad.defender }
        else sec
      some sec
    | none => platformResults.security
  let report0 : Report :=
    { schemaVersion := "2.0"
      agentVersion := some agentVersion
      runId := some runId
      collectedAt := nowUtc
      deviceIdentity := (platformResults.deviceIdentity).getD (.vdict [])
      hardware := hwSection
      physicalDisks := physicalDisks
      storage := storageList
      network := netSection
      osDetail := some ((platformResults.osDetail).getD {})
      software := some (software1.getD { installed := [], count := some 0 })
      startup := platformResults.startup
      security := security1.getD {}
      logs := (platformResults.logs).getD {}
      findings := []
      riskScore := { score := 0, level := "low", factors := [] }
      errors := allErrors
      -- Legacy v1 keys
      snapshot := { generatedAtUtc := uptime.snapshotUtc.getD nowUtc
                    toolVersion := agentVersion }
      os := legacyOs
      reboot := uptime
      disks := storageList
      recommendations := none }
  let fr := computeFindings report0 patterns
  let report1 := { report0 with findings := fr.1, riskScore := fr.2 }
  { report1 with recommendations := some (analyze report1) }

-- ── Specification-side definitions ──────────────────────────────────────────

/-- The score-to-level banding table of the spec (§4.3). -/
def levelOf (score : Nat) : String :=
  if score ≥ 61 then "critical"
  else if score ≥ 31 then "high"
  else if score ≥ 11 then "medium"
  else "low"

/-- Severity rank per the spec's comparator: critical < high < medium < low. -/
def sevRank (s : String) : Nat :=
  if s = "critical" then 0
  else if s = "high" then 1
  else if s = "medium" then 2
  else if s = "low" then 3
  else 4

/-- The findings list is sorted by severity rank (adjacent ranks ascending). -/
def sortedBySevRank : List Finding → Bool
  | [] => true
  | [_] => true
  | a :: b :: rest =>
    decide (sevRank a.severity ≤ sevRank b.severity) && sortedBySevRank (b :: rest)

/-- The SEC-001 rule (no active antivirus) as a standalone block. -/
def sec001Findings (r : Report) : List Finding :=
  if (r.security.antivirus.filter fun av => av.enabled.getD false).isEmpty then
    [{ id := "SEC-001", severity := "high",
       title := "No active antivirus detected",
       detail := "No enabled antivirus product was found via SecurityCenter2." }]
  else []

/-- The SEC-002 rule (UAC disabled) as a standalone block. -/
def sec002Findings (r : Report) : List Finding :=
  if r.security.uacEnabled = some false then
    [{ id := "SEC-002", severity := "high",
       title := "UAC is disabled",
       detail := "User Account Control (EnableLUA) is set to 0 in the registry." }]
  else []

/-- The SEC-003 rule (public firewall disabled) as a standalone block. -/
def sec003Findings (r : Report) : List Finding :=
  if r.security.firewall.publicEnabled = some false then
    [{ id := "SEC-003", severity := "high",
       title := "Public firewall profile is disabled",
       detail := "The Windows Firewall public profile is not active." }]
  else []

/-- The SEC-004 rule (BitLocker gap) as a standalone block. -/
def sec004Findings (r : Report) : List Finding :=
  let blVols := r.security.encryption.bitlockerVolumes
  let unprotected := blVols.filter fun v => v.protectionStatus != some 1
  if !blVols.isEmpty && !unprotected.isEmpty then
    [{ id := "SEC-004", severity := "medium",
       title := "BitLocker not active on all volumes",
       detail := toString unprotected.length
         ++ " volume(s) lack active BitLocker protection." }]
  else []

/-- The SEC-005 rule (failed logins) as a standalone block. -/
def sec005Findings (r : Report) : List Finding :=
  let count := r.logs.failedLogins.length
  if count ≥ 5 then
    [{ id := "SEC-005",
       severity := if count ≥ 10 then "high" else "medium",
       title := "Multiple failed login attempts detected",
       detail := toString count
         ++ " failed login event(s) found in the Security log." }]
  else []

/-- The SYS-001 rule (long uptime) as a standalone block. -/
def sys001Findings (r : Report) : List Finding :=
  let uptimeDays : Int := match r.reboot.uptime with
    | some u => u.days.getD 0
    | none => 0
  if uptimeDays > 60 then
    [{ id := "SYS-001", severity := "high",
       title := "System uptime exceeds 60 days",
       detail := "System has been running for " ++ toString uptimeDays
         ++ " days without a reboot." }]
  else if uptimeDays > 30 then
    [{ id := "SYS-001", severity := "medium",
       title := "System uptime exceeds 30 days",
       detail := "System has been running for " ++ toString uptimeDays
         ++ " days without a reboot." }]
  else []

/-- The SWU-001 rule (unwanted software) as a standalone block. -/
def swu001Findings (r : Report) (patterns : List PatternEntry) : List Finding :=
  let installed := match r.software with
    | some sw => sw.installed
    | none => []
  (matchInstalled installed patterns).map swuFinding

/-- The SYS-002 rule evaluated for one volume. -/
def sys002ForVolume (disk : StorageVolume) : List Finding :=
  let pct := disk.percentUsed.getD 0
  let mp := disk.mountpoint.getD "?"
  if pct > 95 then
    [{ id := "SYS-002", severity := "high",
       title := "Disk critically full: " ++ mp,
       detail := mp ++ " is " ++ fmtNum pct ++ "% full (>95%)." }]
  else if pct > 90 then
    [{ id := "SYS-002", severity := "medium",
       title := "Disk nearly full: " ++ mp,
       detail := mp ++ " is " ++ fmtNum pct ++ "% full (>90%)." }]
  else ([] : List Finding)

/-- The SYS-002 rule (disk full) as a standalone block. -/
def sys002Findings (r : Report) : List Finding :=
  r.storage.flatMap fun disk => sys002ForVolume disk

/-- All suggestions of a maintenance plan, across the three categories. -/
def planAllSuggestions (plan : MaintenancePlan) : List Suggestion :=
  plan.suggestions.tempCleanup ++ plan.suggestions.startupReduction
    ++ plan.suggestions.osUpdates

/-- (id, priority, title) digest of a suggestion. -/
def suggestionSummary (s : Suggestion) : String × String × String :=
  (s.id, s.priority, s.title)

-- ── Helper lemmas ───────────────────────────────────────────────────────────

theorem ite_append_right {α : Type} (c : Prop) [Decidable c] (a b : List α) :
    (if c then a ++ b else a) = a ++ (if c then b else []) := by
  split <;> simp

theorem ite_append_ite {α : Type} (c c' : Prop) [Decidable c] [Decidable c']
    (a b b' : List α) :
    (if c then a ++ b else a ++ (if c' then b' else [])) =
      a ++ (if c then b else if c' then b' else []) := by
  split_ifs <;> simp

/-- `compute_findings` emits exactly the eight rule blocks, in rule order. -/
theorem computeFindings_blocks (r : Report) (p : List PatternEntry) :
    (computeFindings r p).1 =
      sec001Findings r ++ sec002Findings r ++ sec003Findings r
        ++ sec004Findings r ++ sec005Findings r ++ sys001Findings r
        ++ swu001Findings r p ++ sys002Findings r := by
  simp only [computeFindings, ite_append_right, ite_append_ite]
  simp only [sec001Findings, sec002Findings, sec003Findings, sec004Findings,
    sec005Findings, sys001Findings, swu001Findings, sys002Findings,
    sys002ForVolume, List.append_assoc, List.nil_append]

theorem sec001Findings_id (r : Report) : ∀ f ∈ sec001Findings r, f.id = "SEC-001" := by
  simp only [sec001Findings]
  split
  · intro f hf
    simp only [List.mem_singleton] at hf
    subst hf
    rfl
  · intro f hf
    simp at hf

theorem sec002Findings_id (r : Report) : ∀ f ∈ sec002Findings r, f.id = "SEC-002" := by
  simp only [sec002Findings]
  split
  · intro f hf
    simp only [List.mem_singleton] at hf
    subst hf
    rfl
  · intro f hf
    simp at hf

theorem sec003Findings_id (r : Report) : ∀ f ∈ sec003Findings r, f.id = "SEC-003" := by
  simp only [sec003Findings]
  split
  · intro f hf
    simp only [List.mem_singleton] at hf
    subst hf
    rfl
  · intro f hf
    simp at hf

theorem sec004Findings_id (r : Report) : ∀ f ∈ sec004Findings r, f.id = "SEC-004" := by
  simp only [sec004Findings]
  split
  · intro f hf
    simp only [List.mem_singleton] at hf
    subst hf
    rfl
  · intro f hf
    simp at hf

theorem sec005Findings_id (r : Report) : ∀ f ∈ sec005Findings r, f.id = "SEC-005" := by
  simp only [sec005Findings]
  split
  · intro f hf
    simp only [List.mem_singleton] at hf
    subst hf
    rfl
  · intro f hf
    simp at hf

theorem sys001Findings_id (r : Report) : ∀ f ∈ sys001Findings r, f.id = "SYS-001" := by
  simp only [sys001Findings]
  split
  · intro f hf
    simp only [List.mem_singleton] at hf
    subst hf
    rfl
  · split
    · intro f hf
      simp only [List.mem_singleton] at hf
      subst hf
      rfl
    · intro f hf
      simp at hf

theorem swu001Findings_id (r : Report) (p : List PatternEntry) :
    ∀ f ∈ swu001Findings r p, f.id = "SWU-001" := by
  intro f hf
  simp only [swu001Findings, List.mem_map] at hf
  obtain ⟨m, -, rfl⟩ := hf
  rfl

theorem sys002ForVolume_id (v : StorageVolume) :
    ∀ f ∈ sys002ForVolume v, f.id = "SYS-002" := by
  simp only [sys002ForVolume]
  split
  · intro f hf
    simp only [List.mem_singleton] at hf
    subst hf
    rfl
  · split
    · intro f hf
      simp only [List.mem_singleton] at hf
      subst hf
      rfl
    · intro f hf
      simp at hf

theorem sys002Findings_id (r : Report) : ∀ f ∈ sys002Findings r, f.id = "SYS-002" := by
  intro f hf
  simp only [sys002Findings, List.mem_flatMap] at hf
  obtain ⟨v, -, hv⟩ := hf
  exact sys002ForVolume_id v f hv

theorem not_mem_map_id {l : List Finding} {a b : String} (hab : b ≠ a)
    (h : ∀ f ∈ l, f.id = a) : b ∉ l.map fun f => f.id := by
  intro hb
  simp only [List.mem_map] at hb
  obtain ⟨f, hf, hfb⟩ := hb
  exact hab (hfb ▸ h f hf)

theorem getD_false_eq_true_iff (o : Option Bool) :
    o.getD false = true ↔ o = some true := by
  cases o <;> simp

/-- `SEC-001` is emitted exactly when the truthy-enabled filter is empty. -/
theorem mem_ids_sec001_iff (r : Report) (p : List PatternEntry) :
    "SEC-001" ∈ ((computeFindings r p).1.map fun f => f.id) ↔
      (r.security.antivirus.filter fun av => av.enabled.getD false).isEmpty = true := by
  rw [computeFindings_blocks]
  simp only [List.map_append, List.mem_append]
  constructor
  · rintro (((((((h | h) | h) | h) | h) | h) | h) | h)
    · revert h
      simp only [sec001Findings]
      split
      · intro _
        assumption
      · intro h
        simp at h
    · exact absurd h (not_mem_map_id (by decide) (sec002Findings_id r))
    · exact absurd h (not_mem_map_id (by decide) (sec003Findings_id r))
    · exact absurd h (not_mem_map_id (by decide) (sec004Findings_id r))
    · exact absurd h (not_mem_map_id (by decide) (sec005Findings_id r))
    · exact absurd h (not_mem_map_id (by decide) (sys001Findings_id r))
    · exact absurd h (not_mem_map_id (by decide) (swu001Findings_id r p))
    · exact absurd h (not_mem_map_id (by decide) (sys002Findings_id r))
  · intro hc
    refine Or.inl (Or.inl (Or.inl (Or.inl (Or.inl (Or.inl (Or.inl ?_))))))
    simp [sec001Findings, hc]

/-- C1: for every report (and pattern table), the risk score is
`min(100, sum of severity weights with low=5, medium=15, high=30,
critical=50)`; the level is the pure banding function of the score
(≥61 critical, ≥31 high, ≥11 medium, else low); the score never exceeds 100
(and is a natural number, hence ≥ 0); and `factors` is exactly the list of
ids of the emitted findings, in finding order. -/
theorem risk_score_spec (r : Report) (p : List PatternEntry) :
    (computeFindings r p).2.score =
        min 100 (((computeFindings r p).1.map fun f => severityWeight f.severity).sum)
      ∧ (computeFindings r p).2.level = levelOf (computeFindings r p).2.score
      ∧ (computeFindings r p).2.score ≤ 100
      ∧ (computeFindings r p).2.factors = ((computeFindings r p).1.map fun f => f.id) :=
  ⟨rfl, rfl, Nat.min_le_left _ _, rfl⟩

/-- C2 (amended): `compute_findings` applies no severity-rank sort; the
findings list is exactly the concatenation of the rule blocks in fixed
rule-evaluation order (SEC-001, SEC-002, SEC-003, SEC-004, SEC-005, SYS-001,
then one SWU-001 per unwanted-software match in match order, then SYS-002 per
volume in volume order), so findings keep rule-evaluation order. -/
theorem findings_rule_evaluation_order (r : Report) (p : List PatternEntry) :
    (computeFindings r p).1 =
      sec001Findings r ++ sec002Findings r ++ sec003Findings r
        ++ sec004Findings r ++ sec005Findings r ++ sys001Findings r
        ++ swu001Findings r p ++ sys002Findings r :=
  computeFindings_blocks r p

/-- A report whose findings come out in the order SEC-004 (medium),
SEC-005 (high): an active antivirus, UAC and public firewall on, one
unprotected BitLocker volume, ten failed logins, short uptime, healthy disk. -/
def c2Report : Report :=
  { security := {
      antivirus := [{ name := some "Windows Defender", enabled := some true }]
      firewall := { domainEnabled := some true, privateEnabled := some true,
                    publicEnabled := some true }
      uacEnabled := some true
      encryption := { bitlockerVolumes :=
        [{ mountPoint := some "C:\\", protectionStatus := some 0 }] } }
    logs := { failedLogins := List.replicate 10 (.vdict []) }
    reboot := { uptime := some { days := some 5 } }
    storage := [{ mountpoint := some "C:\\", percentUsed := some 50 }] }

/-- C2 counterexample: on `c2Report` the findings are
[SEC-004 (medium), SEC-005 (high)] — a high-severity finding after a
medium one, so the list is not sorted by the severity-rank comparator
(critical, high, medium, low). -/
theorem findings_not_severity_sorted_cex :
    ((computeFindings c2Report []).1.map fun f => (f.id, f.severity)) =
        [("SEC-004", "medium"), ("SEC-005", "high")]
      ∧ sortedBySevRank (computeFindings c2Report []).1 = false := by
  constructor
  · rfl
  · rfl

/-- C5: an unknown/null value for a boolean-gated rule never triggers it:
`uac_enabled` absent-or-null suppresses SEC-002, `firewall.public_enabled`
absent-or-null suppresses SEC-003. -/
theorem unknown_boolean_gates_suppress (r : Report) (p : List PatternEntry) :
    (r.security.uacEnabled = none →
      "SEC-002" ∉ ((computeFindings r p).1.map fun f => f.id))
  ∧ (r.security.firewall.publicEnabled = none →
      "SEC-003" ∉ ((computeFindings r p).1.map fun f => f.id)) := by
  constructor
  · intro h hm
    rw [computeFindings_blocks] at hm
    simp only [List.map_append, List.mem_append] at hm
    rcases hm with (((((((hm | hm) | hm) | hm) | hm) | hm) | hm) | hm)
    · exact not_mem_map_id (by decide) (sec001Findings_id r) hm
    · simp [sec002Findings, h] at hm
    · exact not_mem_map_id (by decide) (sec003Findings_id r) hm
    · exact not_mem_map_id (by decide) (sec004Findings_id r) hm
    · exact not_mem_map_id (by decide) (sec005Findings_id r) hm
    · exact not_mem_map_id (by decide) (sys001Findings_id r) hm
    · exact not_mem_map_id (by decide) (swu001Findings_id r p) hm
    · exact not_mem_map_id (by decide) (sys002Findings_id r) hm
  · intro h hm
    rw [computeFindings_blocks] at hm
    simp only [List.map_append, List.mem_append] at hm
    rcases hm with (((((((hm | hm) | hm) | hm) | hm) | hm) | hm) | hm)
    · exact not_mem_map_id (by decide) (sec001Findings_id r) hm
    · exact not_mem_map_id (by decide) (sec002Findings_id r) hm
    · simp [sec003Findings, h] at hm
    · exact not_mem_map_id (by decide) (sec004Findings_id r) hm
    · exact not_mem_map_id (by decide) (sec005Findings_id r) hm
    · exact not_mem_map_id (by decide) (sys001Findings_id r) hm
    · exact not_mem_map_id (by decide) (swu001Findings_id r p) hm
    · exact not_mem_map_id (by decide) (sys002Findings_id r) hm

/-- C5 witness: on the empty report both gates are unknown and neither
SEC-002 nor SEC-003 is emitted. -/
theorem unknown_boolean_gates_suppress_witness :
    "SEC-002" ∉ ((computeFindings ({} : Report) []).1.map fun f => f.id)
  ∧ "SEC-003" ∉ ((computeFindings ({} : Report) []).1.map fun f => f.id) :=
  ⟨(unknown_boolean_gates_suppress {} []).1 rfl,
   (unknown_boolean_gates_suppress {} []).2 rfl⟩

/-- C8: SEC-001 is emitted iff no antivirus entry has `enabled = true`
(so an empty list — in particular an absent security section — always
yields it), and every SEC-001 finding has severity `high`. -/
theorem antivirus_rule_iff (r : Report) (p : List PatternEntry) :
    ("SEC-001" ∈ ((computeFindings r p).1.map fun f => f.id) ↔
      ∀ av ∈ r.security.antivirus, av.enabled ≠ some true)
  ∧ (∀ f ∈ (computeFindings r p).1, f.id = "SEC-001" → f.severity = "high") := by
  constructor
  · rw [mem_ids_sec001_iff, List.isEmpty_iff, List.filter_eq_nil_iff]
    simp only [getD_false_eq_true_iff]
  · intro f hf hid
    rw [computeFindings_blocks] at hf
    simp only [List.mem_append] at hf
    rcases hf with (((((((h | h) | h) | h) | h) | h) | h) | h)
    · revert h
      simp only [sec001Findings]
      split
      · intro h
        simp only [List.mem_singleton] at h
        subst h
        rfl
      · intro h
        simp at h
    · exact absurd (sec002Findings_id r f h ▸ hid) (by decide)
    · exact absurd (sec003Findings_id r f h ▸ hid) (by decide)
    · exact absurd (sec004Findings_id r f h ▸ hid) (by decide)
    · exact absurd (sec005Findings_id r f h ▸ hid) (by decide)
    · exact absurd (sys001Findings_id r f h ▸ hid) (by decide)
    · exact absurd (swu001Findings_id r p f h ▸ hid) (by decide)
    · exact absurd (sys002Findings_id r f h ▸ hid) (by decide)

/-- C8 witness: the empty report (absent security section, empty antivirus
list) yields SEC-001; a report with one `enabled = true` entry does not. -/
theorem antivirus_rule_iff_witness :
    ("SEC-001" ∈ ((computeFindings ({} : Report) []).1.map fun f => f.id))
  ∧ ("SEC-001" ∉ ((computeFindings
      ({ security := { antivirus := [{ enabled := some true }] } } : Report)
      []).1.map fun f => f.id)) :=
  ⟨(antivirus_rule_iff {} []).1.mpr (by simp),
   fun h =>
     (antivirus_rule_iff _ []).1.mp h { enabled := some true } (by simp) rfl⟩

theorem filter_sys002_of_ids {l : List Finding} {a : String}
    (ha : (a == "SYS-002") = false) (h : ∀ f ∈ l, f.id = a) :
    (l.filter fun f => f.id == "SYS-002") = [] := by
  rw [List.filter_eq_nil_iff]
  intro f hf
  simp [h f hf, ha]

theorem filter_sys002_self (r : Report) :
    ((sys002Findings r).filter fun f => f.id == "SYS-002") = sys002Findings r := by
  rw [List.filter_eq_self]
  intro f hf
  simp [sys002Findings_id r f hf]

/-- C7: the SYS-002 findings of a report are exactly the per-volume disk-full
rule applied to each storage volume in order; per volume,
`percent_used > 95` yields exactly one high finding, `90 < percent_used ≤ 95`
exactly one medium finding, and `percent_used ≤ 90` (or a missing value)
yields none. -/
theorem disk_rule_per_volume (r : Report) (p : List PatternEntry) :
    ((computeFindings r p).1.filter fun f => f.id == "SYS-002") =
      r.storage.flatMap (fun v => sys002ForVolume v)
  ∧ (∀ v : StorageVolume, ∀ pct : Rat, v.percentUsed = some pct →
      (pct > 95 → sys002ForVolume v =
        [{ id := "SYS-002", severity := "high",
           title := "Disk critically full: " ++ v.mountpoint.getD "?",
           detail := v.mountpoint.getD "?" ++ " is " ++ fmtNum pct
             ++ "% full (>95%)." }])
      ∧ (pct > 90 ∧ pct ≤ 95 → sys002ForVolume v =
        [{ id := "SYS-002", severity := "medium",
           title := "Disk nearly full: " ++ v.mountpoint.getD "?",
           detail := v.mountpoint.getD "?" ++ " is " ++ fmtNum pct
             ++ "% full (>90%)." }])
      ∧ (pct ≤ 90 → sys002ForVolume v = []))
  ∧ (∀ v : StorageVolume, v.percentUsed = none → sys002ForVolume v = []) := by
  refine ⟨?_, ?_, ?_⟩
  · rw [computeFindings_blocks]
    simp only [List.filter_append]
    rw [filter_sys002_of_ids (by decide) (sec001Findings_id r),
      filter_sys002_of_ids (by decide) (sec002Findings_id r),
      filter_sys002_of_ids (by decide) (sec003Findings_id r),
      filter_sys002_of_ids (by decide) (sec004Findings_id r),
      filter_sys002_of_ids (by decide) (sec005Findings_id r),
      filter_sys002_of_ids (by decide) (sys001Findings_id r),
      filter_sys002_of_ids (by decide) (swu001Findings_id r p),
      filter_sys002_self r]
    simp only [List.nil_append]
    rfl
  · intro v pct hp
    refine ⟨?_, ?_, ?_⟩
    · intro h95
      simp [sys002ForVolume, hp, h95]
    · intro h
      simp [sys002ForVolume, hp, h.1, not_lt.mpr h.2]
    · intro h90
      have h1 : ¬(95 : Rat) < pct := not_lt.mpr (h90.trans (by norm_num))
      have h2 : ¬(90 : Rat) < pct := not_lt.mpr h90
      simp [sys002ForVolume, hp, h1, h2]
  · intro v hn
    norm_num [sys002ForVolume, hn]

/-- C7 witness: 96% yields the high finding, 91% the medium one, 50% none. -/
theorem disk_rule_per_volume_witness :
    sys002ForVolume { mountpoint := some "C:\\", percentUsed := some 96 } =
        [{ id := "SYS-002", severity := "high",
           title := "Disk critically full: C:\\",
           detail := "C:\\ is 96% full (>95%)." }]
  ∧ sys002ForVolume { mountpoint := some "D:\\", percentUsed := some 91 } =
        [{ id := "SYS-002", severity := "medium",
           title := "Disk nearly full: D:\\",
           detail := "D:\\ is 91% full (>90%)." }]
  ∧ sys002ForVolume { mountpoint := some "E:\\", percentUsed := some 50 } = [] := by
  refine ⟨?_, ?_, ?_⟩
  · exact (((disk_rule_per_volume {} []).2.1 _ 96 rfl).1 (by norm_num)).trans (by decide)
  · exact (((disk_rule_per_volume {} []).2.1 _ 91 rfl).2.1 (by norm_num)).trans (by decide)
  · exact ((disk_rule_per_volume {} []).2.1 _ 50 rfl).2.2 (by norm_num)

/-- C4: `collect()` never propagates an internal failure: a raising
`_collect` is converted to empty data plus the single error string
`"<collector-name>: <cause>"`, and a succeeding `_collect` is passed through
with an empty error list. -/
theorem collector_never_raises (name : String) (res : Except String Val) :
    (∀ e, res = .error e →
      BaseCollector.collect name res =
        { data := .vdict [], errors := [name ++ ": " ++ e] })
  ∧ (∀ d, res = .ok d →
      BaseCollector.collect name res = { data := d, errors := [] }) := by
  constructor
  · rintro e rfl
    rfl
  · rintro d rfl
    rfl

/-- C4 witness: a concrete failing collector is isolated into one error. -/
theorem collector_never_raises_witness :
    BaseCollector.collect "windows.storage" (Except.error "Access is denied") =
      { data := .vdict [], errors := ["windows.storage: Access is denied"] } :=
  (collector_never_raises "windows.storage"
    (Except.error "Access is denied")).1 "Access is denied" rfl

theorem findPatternMatch_eq_find (a : String) (ps : List PatternEntry) :
    findPatternMatch a ps =
      (ps.find? fun e => containsCI (e.name.getD "") a).map (mkMatchRecord a) := by
  induction ps with
  | nil => rfl
  | cons e rest ih =>
    by_cases hc : containsCI (e.name.getD "") a
    · simp [findPatternMatch, List.find?_cons_of_pos, hc]
    · simp [findPatternMatch, List.find?_cons_of_neg, hc, ih]

theorem matchInstalledLoop_eq_filterMap (patterns : List PatternEntry)
    (installed : List InstalledApp) :
    matchInstalledLoop patterns installed =
      installed.filterMap fun app =>
        (patterns.find? fun e =>
          containsCI (e.name.getD "") (app.name.getD "")).map
            (mkMatchRecord (app.name.getD "")) := by
  induction installed with
  | nil => rfl
  | cons app rest ih =>
    simp only [matchInstalledLoop, findPatternMatch_eq_find]
    cases h : (patterns.find? fun e =>
        containsCI (e.name.getD "") (app.name.getD "")) with
    | none => simpa [h] using ih
    | some m => simpa [h] using ih

/-- C6: `match_installed` compares each record's name case-insensitively by
substring against the patterns in table order and keeps only the first match
per record (`find?`), so one installed item yields at most one record; an
empty pattern table yields the empty list. -/
theorem match_installed_first_match (installed : List InstalledApp)
    (patterns : List PatternEntry) :
    matchInstalled installed patterns =
      (installed.filterMap fun app =>
        (patterns.find? fun e =>
          containsCI (e.name.getD "") (app.name.getD "")).map
            (mkMatchRecord (app.name.getD "")))
  ∧ matchInstalled installed [] = [] := by
  constructor
  · rw [matchInstalled]
    split
    · rename_i hp
      rw [List.isEmpty_iff] at hp
      subst hp
      induction installed with
      | nil => rfl
      | cons app rest ih => simp [ih]
    · exact matchInstalledLoop_eq_filterMap patterns installed
  · rfl

theorem tempCleanup_advisory (r : Report) :
    ∀ s ∈ analyzeTempCleanup r,
      s.safeToAutomate = false ∧ s.action.type' = "suggest_only" := by
  intro s hs
  simp only [analyzeTempCleanup, List.mem_flatMap] at hs
  obtain ⟨v, -, hv⟩ := hs
  split at hv
  · simp at hv
  · simp only [List.mem_singleton] at hv
    subst hv
    exact ⟨rfl, rfl⟩

theorem processStartupEntries_advisory (l : List StartupEntry) :
    ∀ (c : Nat), ∀ s ∈ (processStartupEntries l c).1,
      s.safeToAutomate = false ∧ s.action.type' = "suggest_only" := by
  induction l with
  | nil =>
    intro c s hs
    simp [processStartupEntries] at hs
  | cons e rest ih =>
    intro c s hs
    simp only [processStartupEntries] at hs
    split at hs
    · exact ih c s hs
    · split at hs
      · simp only [List.mem_cons] at hs
        rcases hs with rfl | hs
        · exact ⟨rfl, rfl⟩
        · exact ih (c + 1) s hs
      · split at hs
        · simp only [List.mem_cons] at hs
          rcases hs with rfl | hs
          · exact ⟨rfl, rfl⟩
          · exact ih (c + 1) s hs
        · split at hs
          · simp only [List.mem_cons] at hs
            rcases hs with rfl | hs
            · exact ⟨rfl, rfl⟩
            · exact ih (c + 1) s hs
          · exact ih c s hs

theorem processScheduledTasks_advisory (l : List ScheduledTask) :
    ∀ (c : Nat), ∀ s ∈ (processScheduledTasks l c).1,
      s.safeToAutomate = false ∧ s.action.type' = "suggest_only" := by
  induction l with
  | nil =>
    intro c s hs
    simp [processScheduledTasks] at hs
  | cons t rest ih =>
    intro c s hs
    simp only [processScheduledTasks] at hs
    split at hs
    · exact ih c s hs
    · split at hs
      · exact ih c s hs
      · split at hs
        · exact ih c s hs
        · simp only [List.mem_cons] at hs
          rcases hs with rfl | hs
          · exact ⟨rfl, rfl⟩
          · exact ih (c + 1) s hs

theorem analyzeStartupReduction_advisory (r : Report) :
    ∀ s ∈ analyzeStartupReduction r,
      s.safeToAutomate = false ∧ s.action.type' = "suggest_only" := by
  intro s hs
  simp only [analyzeStartupReduction, List.mem_append] at hs
  rcases hs with h | h
  · exact processStartupEntries_advisory _ _ s h
  · exact processScheduledTasks_advisory _ _ s h

theorem analyzeOsUpdates_advisory (r : Report) (nowMs : Int) :
    ∀ s ∈ analyzeOsUpdates r nowMs,
      s.safeToAutomate = false ∧ s.action.type' = "suggest_only" := by
  intro s hs
  simp only [analyzeOsUpdates, List.mem_append] at hs
  rcases hs with h | h
  · split at h
    · simp only [List.mem_singleton] at h
      subst h
      exact ⟨rfl, rfl⟩
    · split at h
      · simp only [List.mem_singleton] at h
        subst h
        exact ⟨rfl, rfl⟩
      · simp at h
  · simp only [List.mem_singleton] at h
    subst h
    exact ⟨rfl, rfl⟩

/-- C3: every suggestion of a generated maintenance plan, across all three
categories, has `safe_to_automate = false` and `action.type = "suggest_only"`,
for every input report. -/
theorem maintenance_advisory_only (r : Report) (nowMs : Int)
    (generatedAt : String) :
    ∀ s ∈ planAllSuggestions (generate r nowMs generatedAt),
      s.safeToAutomate = false ∧ s.action.type' = "suggest_only" := by
  intro s hs
  simp only [planAllSuggestions, generate, List.mem_append] at hs
  rcases hs with (h | h) | h
  · exact tempCleanup_advisory r s h
  · exact analyzeStartupReduction_advisory r s h
  · exact analyzeOsUpdates_advisory r nowMs s h

/-- C3 witness: the standing update reminder belongs to the plan of the empty
report, and it is advisory-only. -/
theorem maintenance_advisory_only_witness :
    standingUpdateReminder.safeToAutomate = false
  ∧ standingUpdateReminder.action.type' = "suggest_only" :=
  maintenance_advisory_only {} 0 "" standingUpdateReminder (by decide)

/-- C10: the OS-update analyzer emits exactly one medium "verify update
status" suggestion when the patch date cannot be parsed; otherwise one
staleness suggestion banded by days since patch (≥90 high, ≥30 medium,
≥14 low, fewer none); and in every case exactly one standing informational
reminder, last. -/
theorem os_update_bands (r : Report) (nowMs : Int) :
    (parseLastPatch (reportPatches r).lastInstalled = none →
      (analyzeOsUpdates r nowMs).map suggestionSummary =
        [("MAINT-OSU-001", "medium", "Verify Windows Update status"),
         ("MAINT-OSU-002", "info", "Confirm Windows Update is set to automatic")])
  ∧ (∀ ms, parseLastPatch (reportPatches r).lastInstalled = some ms →
      (analyzeOsUpdates r nowMs).map suggestionSummary =
        (if Int.fdiv (nowMs - (ms : Int)) 86400000 ≥ 90 then
          [("MAINT-OSU-001", "high", "Apply pending Windows updates")]
        else if Int.fdiv (nowMs - (ms : Int)) 86400000 ≥ 30 then
          [("MAINT-OSU-001", "medium", "Apply pending Windows updates")]
        else if Int.fdiv (nowMs - (ms : Int)) 86400000 ≥ 14 then
          [("MAINT-OSU-001", "low", "Apply pending Windows updates")]
        else [])
        ++ [("MAINT-OSU-002", "info",
             "Confirm Windows Update is set to automatic")]) := by
  constructor
  · intro h
    simp [analyzeOsUpdates, h, suggestionSummary, standingUpdateReminder]
  · intro ms h
    simp only [analyzeOsUpdates, h]
    by_cases h90 : Int.fdiv (nowMs - (ms : Int)) 86400000 ≥ 90
    · simp [h90, suggestionSummary, standingUpdateReminder]
    · by_cases h30 : Int.fdiv (nowMs - (ms : Int)) 86400000 ≥ 30
      · simp [h90, h30, suggestionSummary, standingUpdateReminder]
      · by_cases h14 : Int.fdiv (nowMs - (ms : Int)) 86400000 ≥ 14
        · simp [h90, h30, h14, suggestionSummary, standingUpdateReminder]
        · simp [h90, h30, h14, suggestionSummary, standingUpdateReminder]

/-- C10 witness: an unparsable date yields the verify reminder; a patch from
100 days ago yields the high-priority staleness suggestion. -/
theorem os_update_bands_witness :
    ((analyzeOsUpdates ({} : Report) 0).map suggestionSummary =
      [("MAINT-OSU-001", "medium", "Verify Windows Update status"),
       ("MAINT-OSU-002", "info", "Confirm Windows Update is set to automatic")])
  ∧ ((analyzeOsUpdates
        ({ osDetail := some { patches := some { lastInstalled := some "/Date(0)/" } } } : Report)
        8640000000).map suggestionSummary =
      [("MAINT-OSU-001", "high", "Apply pending Windows updates"),
       ("MAINT-OSU-002", "info", "Confirm Windows Update is set to automatic")]) :=
  ⟨(os_update_bands {} 0).1 rfl,
   ((os_update_bands
      ({ osDetail := some { patches := some { lastInstalled := some "/Date(0)/" } } } : Report)
      8640000000).2 0 rfl).trans (by decide)⟩

/-- C9 (amended): the assembled report always carries the four legacy keys;
`disks` is always identical to the structured `storage` section, but the
`os` and `reboot` legacy keys are taken from dedicated inputs (the legacy-OS
helper's output and the uptime collector's data), not derived from the
structured sections; `snapshot` is derived from the uptime data, the clock
and the tool version. -/
theorem legacy_keys_spec (commonHw : Val) (commonStorage : CommonStorageData)
    (commonNet : CommonNetData) (uptime : RebootInfo)
    (platformResults : PlatformResults) (legacyOs : Val)
    (allErrors : List String) (nowUtc runId agentVersion : String)
    (patterns : List PatternEntry) :
    (assembleReport commonHw commonStorage commonNet uptime platformResults
        legacyOs allErrors nowUtc runId agentVersion patterns).disks =
      (assembleReport commonHw commonStorage commonNet uptime platformResults
        legacyOs allErrors nowUtc runId agentVersion patterns).storage
  ∧ (assembleReport commonHw commonStorage commonNet uptime platformResults
        legacyOs allErrors nowUtc runId agentVersion patterns).os = legacyOs
  ∧ (assembleReport commonHw commonStorage commonNet uptime platformResults
        legacyOs allErrors nowUtc runId agentVersion patterns).reboot = uptime
  ∧ (assembleReport commonHw commonStorage commonNet uptime platformResults
        legacyOs allErrors nowUtc runId agentVersion patterns).snapshot =
      { generatedAtUtc := uptime.snapshotUtc.getD nowUtc
        toolVersion := agentVersion } :=
  ⟨rfl, rfl, rfl, rfl⟩

/-- Two assembler runs differing only in the legacy-OS helper's output. -/
def c9ReportA : Report :=
  assembleReport (.vdict []) {} {} {} {}
    (.vdict [("hostname", .vstr "host-a")]) [] "2026-01-01T00:00:00+00:00"
    "run-1" "2.0.0" []

/-- Same inputs as `c9ReportA` except the legacy-OS hostname. -/
def c9ReportB : Report :=
  assembleReport (.vdict []) {} {} {} {}
    (.vdict [("hostname", .vstr "host-b")]) [] "2026-01-01T00:00:00+00:00"
    "run-1" "2.0.0" []

/-- C9 counterexample: two assembler inputs that agree on every structured
section of the output (and on findings/risk/errors) still produce different
legacy `os` keys, so the legacy keys are not derived purely from the
structured sections. -/
theorem legacy_os_not_derived_cex :
    c9ReportA.deviceIdentity = c9ReportB.deviceIdentity
  ∧ c9ReportA.hardware = c9ReportB.hardware
  ∧ c9ReportA.physicalDisks = c9ReportB.physicalDisks
  ∧ c9ReportA.storage = c9ReportB.storage
  ∧ c9ReportA.network = c9ReportB.network
  ∧ c9ReportA.osDetail = c9ReportB.osDetail
  ∧ c9ReportA.software = c9ReportB.software
  ∧ c9ReportA.startup = c9ReportB.startup
  ∧ c9ReportA.security = c9ReportB.security
  ∧ c9ReportA.logs = c9ReportB.logs
  ∧ c9ReportA.findings = c9ReportB.findings
  ∧ c9ReportA.riskScore = c9ReportB.riskScore
  ∧ c9ReportA.errors = c9ReportB.errors
  ∧ c9ReportA.os ≠ c9ReportB.os := by
  refine ⟨rfl, rfl, rfl, rfl, rfl, rfl, rfl, rfl, rfl, rfl, rfl, rfl, rfl, ?_⟩
  intro h
  have h3 : some "host-a" = some "host-b" := by
    calc some "host-a" = c9ReportA.os.getStr "hostname" := rfl
    _ = c9ReportB.os.getStr "hostname" := by rw [h]
    _ = some "host-b" := rfl
  exact absurd h3 (by decide)

end ItSnapshot
